import Mathlib

/-!
Verification development for the hetzner server-management module
(`hetzner/server.py`).

The Python code is shallowly embedded: response documents become Lean
structures, the HTTP transport and the HTML-scraping session are passed
explicitly (as response values, path-indexed response functions, or
call-indexed response sequences), network calls are recorded in an explicit
request log, and Python exceptions become an `Except` error type.

The address-arithmetic module `hetzner.util.addr` and the scraping helper
`hetzner.util.scraping` are collaborators whose sources are not part of this
repository snapshot; they are modelled from the specification (section 4.1
and the scraping design notes) and marked as such below.
-/

namespace Hetzner

/-- Python exceptions that the embedded code can raise. -/
inductive PyErr where
  | keyError
  | attributeError
  | unboundLocalError
  | assertionError
  | valueError
  | addressFormatError
  | webRobotError (msg : String)
  deriving Repr, DecidableEq

/-- Error raised by the structured-API transport (`hetzner.RobotError`),
carrying an HTTP-like status code. -/
structure RobotApiError where
  status : Nat
  deriving Repr, DecidableEq

/-- Equality of embedded results is decidable, so concrete runs of the
embedded code can be checked by evaluation. -/
instance {ε α : Type} [DecidableEq ε] [DecidableEq α] : DecidableEq (Except ε α) := fun x y =>
  match x, y with
  | .ok a, .ok b => decidable_of_iff (a = b) (by simp)
  | .error a, .error b => decidable_of_iff (a = b) (by simp)
  | .ok _, .error _ => isFalse (by simp)
  | .error _, .ok _ => isFalse (by simp)

/-- Truthiness of a Python value that is either `None` or a string:
true exactly for a non-empty string. -/
def truthyStr : Option String → Bool
  | none => false
  | some s => !s.data.isEmpty

/-- Truthiness of a Python value that is either `None` or a boolean. -/
def truthyBool : Option Bool → Bool
  | none => false
  | some b => b

/-! ### String scanning primitives

The admin-account workflow matches regular expressions against scraped HTML.
The patterns used by the source are simple enough that their match semantics
are reproduced here by direct character-list scans. -/

/-- Whether the first character list is a prefix of the second. -/
def isPre : List Char → List Char → Bool
  | [], _ => true
  | _ :: _, [] => false
  | a :: as, b :: bs => a == b && isPre as bs

/-- Whether `needle` occurs as a contiguous sublist of the haystack; this is
the Python substring test `needle in haystack`. -/
def hasSub (needle : List Char) : List Char → Bool
  | [] => needle.isEmpty
  | c :: cs => isPre needle (c :: cs) || hasSub needle cs

/-- Python substring containment on strings. -/
def containsSub (needle hay : String) : Bool :=
  hasSub needle.data hay.data

/-- Suffix of the haystack after the first occurrence of `needle`, or `none`
when `needle` does not occur. -/
def dropSub (needle : List Char) : List Char → Option (List Char)
  | [] => if needle.isEmpty then some [] else none
  | c :: cs =>
    if isPre needle (c :: cs) then some ((c :: cs).drop needle.length)
    else dropSub needle cs

/-- Split the haystack at the first occurrence of `needle`: the part before
the occurrence and the suffix after it. -/
def upToAfter (needle : List Char) : List Char → Option (List Char × List Char)
  | [] => none
  | c :: cs =>
    if isPre needle (c :: cs) then some ([], (c :: cs).drop needle.length)
    else
      match upToAfter needle cs with
      | some (pre, suf) => some (c :: pre, suf)
      | none => none

/-- Worker for `splitSub`, structurally recursive on a fuel argument so that
it evaluates inside the kernel; every recursive call consumes at least one
haystack character, so fuel equal to the haystack length never runs out. -/
def splitSubF (needle : List Char) : Nat → List Char → List (List Char)
  | _, [] => [[]]
  | 0, l => [l]
  | fuel + 1, c :: cs =>
    if needle.length != 0 && isPre needle (c :: cs) then
      [] :: splitSubF needle fuel ((c :: cs).drop needle.length)
    else
      match splitSubF needle fuel cs with
      | s :: ss => (c :: s) :: ss
      | [] => [[c]]

/-- Fields of the haystack between non-overlapping occurrences of a
non-empty `needle`, empty fields preserved; this is Python
`haystack.split(needle)`. -/
def splitSub (needle l : List Char) : List (List Char) :=
  splitSubF needle l.length l

/-- Python `str.split` with an explicit separator, on strings. -/
def pySplit (sep s : String) : List String :=
  (splitSub sep.data s.data).map String.mk

/-- Python regex whitespace class `\s` for the ASCII strings at hand. -/
def isPySpace (c : Char) : Bool :=
  c == ' ' || c == '\t' || c == '\n' || c == '\r' || c == '\x0b' || c == '\x0c'

/-- Strip leading and trailing `\s` characters. -/
def trimPy (l : List Char) : List Char :=
  ((l.dropWhile isPySpace).reverse.dropWhile isPySpace).reverse

/-- Embeds `li_re.finditer` with `li_re = <li>\s*([^<]*?)\s*</li>` (server.py
244): every non-overlapping occurrence of `<li>` followed by a run of
non-`<` characters and then `</li>` yields that run with surrounding
whitespace stripped, and scanning resumes after the closing tag. -/
def liScanF : Nat → List Char → List String
  | _, [] => []
  | 0, _ => []
  | fuel + 1, c :: cs =>
    if isPre "<li>".data (c :: cs) then
      let run := (cs.drop 3).takeWhile (fun ch => ch != '<')
      let after := (cs.drop 3).drop run.length
      if isPre "</li>".data after then
        String.mk (trimPy run) :: liScanF fuel (after.drop 5)
      else liScanF fuel cs
    else liScanF fuel cs

/-- Entry point of the `<li>` scan: every recursive call of the worker
consumes at least one character, so fuel equal to the input length never
runs out. -/
def liScan (l : List Char) : List String := liScanF l.length l

/-- Opening-tag remainder of the error-list pattern. -/
def errorListOpen : List Char := "class=\"error_list\">".data

/-- Embeds `ul_re.search` with `ul_re = <ul\s+class="error_list">(.*?)</ul>`
under `re.DOTALL` (server.py 243): the first `<ul` followed by at least one
whitespace character, the class attribute, a shortest body, and `</ul>`;
the returned value is the whole match (`group(0)`). -/
def ulSearch : List Char → Option (List Char)
  | [] => none
  | c :: cs =>
    if isPre "<ul".data (c :: cs) then
      let rest := cs.drop 2
      let ws := rest.takeWhile isPySpace
      let tagTail := rest.drop ws.length
      if ws.length != 0 && isPre errorListOpen tagTail then
        match upToAfter "</ul>".data (tagTail.drop errorListOpen.length) with
        | some (content, _) =>
          some ("<ul".data ++ ws ++ errorListOpen ++ content ++ "</ul>".data)
        | none => ulSearch cs
      else ulSearch cs
    else ulSearch cs

/-- Embeds the lazy tail of `login_re` (server.py 193): after the matched
label, the first `"element">` marker that is followed by at least one
non-`<` character; the capture `([^<]+)` is the maximal such run. -/
def elemScan : List Char → Option String
  | [] => none
  | c :: cs =>
    if isPre "\"element\">".data (c :: cs) then
      let cap := ((c :: cs).drop 10).takeWhile (fun ch => ch != '<')
      if cap.isEmpty then elemScan cs else some (String.mk cap)
    else elemScan cs

/-- Embeds `login_re.search` with
`login_re = "label_req">Login.*?"element">([^<]+)` under `re.DOTALL`
(server.py 193): the captured group of the leftmost match, or `none`. -/
def searchLogin : List Char → Option String
  | [] => none
  | c :: cs =>
    if isPre "\"label_req\">Login".data (c :: cs) then
      match elemScan ((c :: cs).drop 17) with
      | some m => some m
      | none => searchLogin cs
    else searchLogin cs

/-- The comma join used for aggregated error messages (server.py 248). -/
def joinComma (xs : List String) : String := String.intercalate ", " xs

/-- Modelled from the spec: `hetzner.util.scraping.CSRFParser` is not part of
this repository snapshot.  Per the spec (4.5 step 2 and design note on
scraping), it extracts the one-time anti-forgery token embedded in the form
HTML — here the `value` attribute of the input field named
`password[_csrf_token]` — and yields nothing when the token cannot be
found. -/
def extract_csrf_token (html : String) : Option String :=
  match dropSub "name=\"password[_csrf_token]\"".data html.data with
  | none => none
  | some rest =>
    match dropSub "value=\"".data rest with
    | none => none
    | some r2 => some (String.mk (r2.takeWhile (fun ch => ch != '"')))

/-! ### Address arithmetic (`hetzner.util.addr`)

The module is not part of this repository snapshot; the definitions below
are modelled from spec section 4.1: textual parsing to an integer, CIDR
range computation by zeroing/setting host bits (IPv4 out of 32 bits, IPv6
out of 128), and failure on malformed text. -/

/-- Decimal digit run to a number; `none` on an empty or non-digit run. -/
def parseDecAux : List Char → Nat → Option Nat
  | [], acc => some acc
  | c :: cs, acc =>
    if c.isDigit then parseDecAux cs (acc * 10 + (c.toNat - 48)) else none

/-- Parse a non-empty all-decimal string. -/
def parseDecimal (s : String) : Option Nat :=
  match s.data with
  | [] => none
  | l => parseDecAux l 0

/-- Value of one hexadecimal digit. -/
def hexVal (c : Char) : Option Nat :=
  if c.isDigit then some (c.toNat - 48)
  else if 'a' ≤ c && c ≤ 'f' then some (c.toNat - 87)
  else if 'A' ≤ c && c ≤ 'F' then some (c.toNat - 55)
  else none

/-- Hexadecimal digit run to a number; `none` on an empty or non-hex run. -/
def parseHexAux : List Char → Nat → Option Nat
  | [], acc => some acc
  | c :: cs, acc =>
    match hexVal c with
    | some v => parseHexAux cs (acc * 16 + v)
    | none => none

/-- Modelled from the spec: parse one dotted-quad IPv4 address to its 32-bit
numeric value; malformed text yields `none` (an `AddressFormatError`). -/
def ipv4_parse (s : String) : Option Nat :=
  match (pySplit "." s).mapM parseDecimal with
  | some [a, b, c, d] =>
    if a ≤ 255 && b ≤ 255 && c ≤ 255 && d ≤ 255 then
      some (((a * 256 + b) * 256 + c) * 256 + d)
    else none
  | _ => none

/-- Parse one 1–4 digit hexadecimal IPv6 group. -/
def parseHexGroup (s : String) : Option Nat :=
  match s.data with
  | [] => none
  | l =>
    if l.length ≤ 4 then parseHexAux l 0 else none

/-- Groups of a `:`-separated fragment; the empty fragment has no groups. -/
def ipv6_groups (s : String) : Option (List Nat) :=
  if s.data.isEmpty then some []
  else (pySplit ":" s).mapM parseHexGroup

/-- Fold 16-bit groups into one 128-bit value. -/
def combineGroups (gs : List Nat) : Nat :=
  gs.foldl (fun acc g => acc * 65536 + g) 0

/-- Modelled from the spec: parse one textual IPv6 address (eight
colon-separated hexadecimal groups, with at most one `::` zero-run
compression) to its 128-bit numeric value; malformed text yields `none`. -/
def ipv6_parse (s : String) : Option Nat :=
  match pySplit "::" s with
  | [one] =>
    match (pySplit ":" one).mapM parseHexGroup with
    | some gs => if gs.length == 8 then some (combineGroups gs) else none
    | none => none
  | [l, r] =>
    match ipv6_groups l, ipv6_groups r with
    | some gl, some gr =>
      if gl.length + gr.length < 8 then
        some (combineGroups (gl ++ List.replicate (8 - gl.length - gr.length) 0 ++ gr))
      else none
    | _, _ => none
  | _ => none

/-- Modelled from the spec: the hinted form `parse_ipaddr(text, is_v6)`
parses in the requested address family and returns the numeric value, or
`none` on malformed text. -/
def parse_ipaddr (s : String) (is_v6 : Bool) : Option Nat :=
  if is_v6 then ipv6_parse s else ipv4_parse s

/-- Modelled from the spec: the unhinted form `parse_ipaddr(text)` detects
the address family (a `:` marks IPv6) and returns it with the numeric
value. -/
def parse_ipaddr2 (s : String) : Option (Bool × Nat) :=
  if s.data.contains ':' then (ipv6_parse s).map (fun n => (true, n))
  else (ipv4_parse s).map (fun n => (false, n))

/-- Modelled from the spec: `get_ipv4_range(network_value, mask)` zeroes the
`32 - mask` host bits for the low bound and sets them for the high bound. -/
def get_ipv4_range (n mask : Nat) : Nat × Nat :=
  let host := 32 - mask
  let low := n / 2 ^ host * 2 ^ host
  (low, low + (2 ^ host - 1))

/-- Modelled from the spec: `get_ipv6_range(network_value, mask)` zeroes the
`128 - mask` host bits for the low bound and sets them for the high bound. -/
def get_ipv6_range (n mask : Nat) : Nat × Nat :=
  let host := 128 - mask
  let low := n / 2 ^ host * 2 ^ host
  (low, low + (2 ^ host - 1))

/-! ### AdminAccount (server.py 177–269)

The scraping session is passed explicitly: each operation receives the
response the scraper would return for each request it issues, returns the
updated account (or the raised exception) together with the ordered log of
scraping calls made. -/

/-- Response of the scraping session: a status code and the decoded body. -/
structure ScrapeResponse where
  status : Nat
  body : String
  deriving Repr, DecidableEq

/-- One call made on the scraping session. -/
inductive ScrapeReq where
  | login
  | request (path : String)
  deriving Repr, DecidableEq

/-- Admin-account state: the owning server id and the cached
`exists`/`login`/`passwd` attributes. -/
structure AdminAccount where
  serverid : Nat
  «exists» : Bool
  login : Option String
  passwd : Option String
  deriving Repr, DecidableEq

/-- Admin page path (server.py 195/219). -/
def adminPath (id : Nat) : String := "/server/admin/id/" ++ toString id

/-- Admin-account creation endpoint (server.py 234). -/
def adminCreatePath (id : Nat) : String := "/server/adminCreate/id/" ++ toString id

/-- Admin-account deletion endpoint (server.py 261). -/
def adminDeletePath (id : Nat) : String := "/server/adminDelete/id/" ++ toString id

/-- Embeds `AdminAccount.update_info` (server.py 188–203): log in, fetch the
admin page, assert status 200, and derive `exists`/`login` from the
`login_re` match on the body. -/
def AdminAccount.update_info (a : AdminAccount) (resp : ScrapeResponse) :
    Except PyErr AdminAccount × List ScrapeReq :=
  let log := [ScrapeReq.login, ScrapeReq.request (adminPath a.serverid)]
  if resp.status != 200 then (.error .assertionError, log)
  else
    match searchLogin resp.body.data with
    | none => (.ok { a with «exists» := false }, log)
    | some m => (.ok { a with «exists» := true, login := some m }, log)

/-- Success marker tested by `create` and `delete` (server.py 242/262). -/
def successMarker : String := "msgbox_success"

/-- Failure message chosen by `create` (server.py 232–238): one generic
message per operation, creation versus password update. -/
def adminFailMsg (a : AdminAccount) : String :=
  if !a.exists then "Unable to create admin account"
  else "Unable to update admin account password"

/-- Submission endpoint chosen by `create` (server.py 232–238). -/
def adminSubmitPath (a : AdminAccount) : String :=
  if !a.exists then adminCreatePath a.serverid else "/server/adminUpdate"

/-- Embeds `AdminAccount.create` (server.py 211–253) from the point where
the submitted password is fixed (the source draws a random one when none is
supplied; randomness is outside the embedding, so `passwd` is the submitted
password).  `formResp` answers the form fetch, `submitResp` the submission,
and `discResp` the discovery re-run of `update_info`. -/
def AdminAccount.create (a : AdminAccount) (passwd : String)
    (formResp submitResp discResp : ScrapeResponse) :
    Except PyErr ((Option String × String) × AdminAccount) × List ScrapeReq :=
  let log0 := [ScrapeReq.request (adminPath a.serverid)]
  match extract_csrf_token formResp.body with
  | none => (.error .assertionError, log0)
  | some _tok =>
    let failmsg := adminFailMsg a
    let path := adminSubmitPath a
    let log1 := log0 ++ [ScrapeReq.request path]
    let data := submitResp.body
    if !containsSub successMarker data then
      match ulSearch data.data with
      | some blk =>
        (.error (.webRobotError (failmsg ++ ": " ++ joinComma (liScan blk))), log1)
      | none => (.error (.webRobotError failmsg), log1)
    else
      match AdminAccount.update_info a discResp with
      | (.error e, log2) => (.error e, log1 ++ log2)
      | (.ok a2, log2) =>
        let a3 := { a2 with passwd := some passwd }
        (.ok ((a3.login, passwd), a3), log1 ++ log2)

/-- Embeds `AdminAccount.delete` (server.py 255–263): return immediately
when the account does not exist; otherwise hit the delete endpoint, assert
the success marker in the body, and re-run discovery. -/
def AdminAccount.delete (a : AdminAccount) (delResp discResp : ScrapeResponse) :
    Except PyErr AdminAccount × List ScrapeReq :=
  if !a.exists then (.ok a, [])
  else
    let log0 := [ScrapeReq.request (adminDeletePath a.serverid)]
    if !containsSub successMarker delResp.body then (.error .assertionError, log0)
    else
      match AdminAccount.update_info a discResp with
      | (r, log1) => (r, log0 ++ log1)

/-! ### Structured-API response documents

One uniform document type mirrors the JSON dictionaries the transport
returns; a field that the document lacks is `none`, and reading it through
subscript access is a `KeyError`. -/

/-- Payload of the `rescue` key of a boot-status document (server.py 75–78). -/
structure RescueData where
  active : Bool
  password : Option String
  authorized_key : Option (List String)
  deriving Repr, DecidableEq

/-- Payload of the `ip` key of a single-IP document (server.py 305–314). -/
structure IpData where
  ip : String
  server_ip : Option String
  locked : Bool
  separate_mac : Option String
  traffic_warnings : Bool
  traffic_hourly : Nat
  traffic_daily : Nat
  traffic_monthly : Nat
  deriving Repr, DecidableEq

/-- Payload of the `subnet` key of a subnet document (server.py 355–366). -/
structure SubnetData where
  ip : String
  mask : Nat
  gateway : String
  server_ip : Option String
  failover : Bool
  locked : Bool
  traffic_warnings : Bool
  traffic_hourly : Nat
  traffic_daily : Nat
  traffic_monthly : Nat
  deriving Repr, DecidableEq

/-- Payload of the `server` key of a server document (server.py 457–477). -/
structure ServerData where
  server_ip : Option String
  server_ipv6_net : Option String
  server_number : Nat
  server_name : String
  product : String
  dc : String
  traffic : String
  status : String
  subnet : List String
  cancelled : Bool
  paid_until : String
  linked_storagebox : Option Nat
  deriving Repr, DecidableEq

/-- One decoded response document of the structured API. -/
structure RobotDoc where
  server : Option ServerData := none
  ip : Option IpData := none
  subnet : Option SubnetData := none
  rescue : Option RescueData := none
  deriving Repr, DecidableEq

/-- One call made on the structured-API transport. -/
inductive ConnReq where
  | get (path : String)
  | request (method : String) (path : String)
  deriving Repr, DecidableEq

/-- Whether a transport call is a mutating request (server.py 102: the
rescue actions go through `conn.request`, the status reads through
`conn.get`). -/
def ConnReq.isMutating : ConnReq → Bool
  | .get _ => false
  | .request _ _ => true

/-- Number of mutating requests in a transport log. -/
def countMutating (log : List ConnReq) : Nat :=
  (log.filter ConnReq.isMutating).length

/-! ### RescueSystem (server.py 62–125)

The transport is passed as a call-indexed response sequence `resp` together
with the index `k` of the next call: every network call, read or mutation,
consumes one index.  Each operation returns its result (or raised
exception), the updated cache, the next call index, and the transport
log. -/

/-- Rescue-status cache: the three lazily populated attributes
(server.py 67–69).  A `none` is the Python `None`, which conflates
"not yet fetched" with "fetched and null". -/
structure RescueSystem where
  _active : Option Bool
  _password : Option String
  _authorized_keys : Option (List String)
  deriving Repr, DecidableEq

/-- Cache state of a freshly constructed `RescueSystem` (server.py 63–69). -/
def RescueSystem.init : RescueSystem :=
  { _active := none, _password := none, _authorized_keys := none }

/-- Boot-status path of a server (server.py 73/102). -/
def bootPath (number : Nat) : String := "/boot/" ++ toString number ++ "/rescue"

/-- Embeds the body of `RescueSystem._update_status` after the data document
is at hand (server.py 75–78): read the `rescue` key and repopulate all three
cached attributes from the one document. -/
def RescueSystem.adopt (_rs : RescueSystem) (doc : RobotDoc) :
    Except PyErr RescueSystem :=
  match doc.rescue with
  | none => .error .keyError
  | some r =>
    .ok { _active := some r.active, _password := r.password,
          _authorized_keys := r.authorized_key }

/-- Embeds the `active` property (server.py 80–85): return the cached value
when it is not `None`, otherwise fetch the status document and return the
freshly cached value. -/
def RescueSystem.activeProp (rs : RescueSystem) (number : Nat)
    (resp : Nat → RobotDoc) (k : Nat) :
    Except PyErr (Option Bool) × RescueSystem × Nat × List ConnReq :=
  match rs._active with
  | some b => (.ok (some b), rs, k, [])
  | none =>
    match rs.adopt (resp k) with
    | .error e => (.error e, rs, k + 1, [.get (bootPath number)])
    | .ok rs2 => (.ok rs2._active, rs2, k + 1, [.get (bootPath number)])

/-- Embeds the `password` property (server.py 87–92). -/
def RescueSystem.passwordProp (rs : RescueSystem) (number : Nat)
    (resp : Nat → RobotDoc) (k : Nat) :
    Except PyErr (Option String) × RescueSystem × Nat × List ConnReq :=
  match rs._password with
  | some p => (.ok (some p), rs, k, [])
  | none =>
    match rs.adopt (resp k) with
    | .error e => (.error e, rs, k + 1, [.get (bootPath number)])
    | .ok rs2 => (.ok rs2._password, rs2, k + 1, [.get (bootPath number)])

/-- Embeds the `authorized_keys` property (server.py 94–99). -/
def RescueSystem.authorizedKeysProp (rs : RescueSystem) (number : Nat)
    (resp : Nat → RobotDoc) (k : Nat) :
    Except PyErr (Option (List String)) × RescueSystem × Nat × List ConnReq :=
  match rs._authorized_keys with
  | some ks => (.ok (some ks), rs, k, [])
  | none =>
    match rs.adopt (resp k) with
    | .error e => (.error e, rs, k + 1, [.get (bootPath number)])
    | .ok rs2 => (.ok rs2._authorized_keys, rs2, k + 1, [.get (bootPath number)])

/-- Embeds `RescueSystem.activate` (server.py 106–118 with 101–104): when
the `active` property is falsy, issue one POST to the boot path and adopt
the reply as the new status; otherwise do nothing. -/
def RescueSystem.activate (rs : RescueSystem) (number : Nat)
    (resp : Nat → RobotDoc) (k : Nat) :
    Except PyErr Unit × RescueSystem × Nat × List ConnReq :=
  match rs.activeProp number resp k with
  | (.error e, rs1, k1, log1) => (.error e, rs1, k1, log1)
  | (.ok v, rs1, k1, log1) =>
    if truthyBool v then (.ok (), rs1, k1, log1)
    else
      match rs1.adopt (resp k1) with
      | .error e => (.error e, rs1, k1 + 1, log1 ++ [.request "post" (bootPath number)])
      | .ok rs2 => (.ok (), rs2, k1 + 1, log1 ++ [.request "post" (bootPath number)])

/-! ### IpAddress (server.py 272–317)

For single-resource refreshes the transport is a path-indexed function
`connGet`; operations return the result together with the list of fetched
paths. -/

/-- Cached attributes of an `IpAddress`.  `subnet_ip` distinguishes an
address owned directly (`none`) from a member of a subnet; `_subnet_addr`
is the canonical network address remembered by the subnet branch of
`update_info` (server.py 298), `none` while that attribute has never been
assigned. -/
structure IpAddress where
  subnet_ip : Option String
  _subnet_addr : Option String
  ip : String
  server_ip : Option String
  locked : Bool
  separate_mac : Option String
  traffic_warnings : Bool
  traffic_hourly : Nat
  traffic_daily : Nat
  traffic_monthly : Nat
  deriving Repr, DecidableEq

/-- Embeds the subnet branch of `IpAddress.update_info` once the document is
at hand (server.py 297–314): remember the canonical network address, then
populate the fields with the member address substituted for `ip` and
`separate_mac` forced to `None`. -/
def IpAddress.applySubnet (member : String) (doc : RobotDoc) :
    Except PyErr IpAddress :=
  match doc.subnet with
  | none => .error .keyError
  | some d =>
    .ok { subnet_ip := some member, _subnet_addr := some d.ip, ip := member,
          server_ip := d.server_ip, locked := d.locked, separate_mac := none,
          traffic_warnings := d.traffic_warnings, traffic_hourly := d.traffic_hourly,
          traffic_daily := d.traffic_daily, traffic_monthly := d.traffic_monthly }

/-- Embeds the direct branch of `IpAddress.update_info` once the document is
at hand (server.py 305–314), keeping the existing `subnet_ip` and
`_subnet_addr` attributes. -/
def IpAddress.applyIp (subnet_ip _subnet_addr : Option String) (doc : RobotDoc) :
    Except PyErr IpAddress :=
  match doc.ip with
  | none => .error .keyError
  | some d =>
    .ok { subnet_ip := subnet_ip, _subnet_addr := _subnet_addr, ip := d.ip,
          server_ip := d.server_ip, locked := d.locked, separate_mac := d.separate_mac,
          traffic_warnings := d.traffic_warnings, traffic_hourly := d.traffic_hourly,
          traffic_daily := d.traffic_daily, traffic_monthly := d.traffic_monthly }

/-- Embeds `IpAddress.__init__` (server.py 273–277): the constructor always
receives an explicit result document, stores `subnet_ip`, and runs
`update_info` on that document. -/
def IpAddress.init (doc : RobotDoc) (subnet_ip : Option String) :
    Except PyErr IpAddress :=
  match subnet_ip with
  | some member => IpAddress.applySubnet member doc
  | none => IpAddress.applyIp none none doc

/-- Embeds `IpAddress.update_info` (server.py 288–314).  With no explicit
result, the subnet branch fetches by the remembered canonical network
address — reading `self._subnet_addr` before it was ever assigned is an
`AttributeError` — and the direct branch fetches by the member's own
address. -/
def IpAddress.update_info (s : IpAddress) (result : Option RobotDoc)
    (connGet : String → RobotDoc) : Except PyErr IpAddress × List String :=
  match s.subnet_ip with
  | some member =>
    match result with
    | some r => (IpAddress.applySubnet member r, [])
    | none =>
      match s._subnet_addr with
      | none => (.error .attributeError, [])
      | some na =>
        let p := "/subnet/" ++ na
        (IpAddress.applySubnet member (connGet p), [p])
  | none =>
    match result with
    | some r => (IpAddress.applyIp s.subnet_ip s._subnet_addr r, [])
    | none =>
      let p := "/ip/" ++ s.ip
      (IpAddress.applyIp s.subnet_ip s._subnet_addr (connGet p), [p])

/-! ### Subnet (server.py 342–402) -/

/-- Cached attributes of a `Subnet`, including the numeric values that
`update_info` recomputes from the textual fields on every refresh
(server.py 368–371). -/
structure Subnet where
  net_ip : String
  mask : Nat
  gateway : String
  server_ip : Option String
  failover : Bool
  locked : Bool
  traffic_warnings : Bool
  traffic_hourly : Nat
  traffic_daily : Nat
  traffic_monthly : Nat
  is_ipv6 : Bool
  numeric_net_ip : Nat
  numeric_gateway : Nat
  numeric_range : Nat × Nat
  deriving Repr, DecidableEq

/-- Embeds the body of `Subnet.update_info` once the document is at hand
(server.py 355–371): populate the textual fields, then recompute the
numeric address, gateway, and range wholesale. -/
def Subnet.ofDoc (doc : RobotDoc) : Except PyErr Subnet :=
  match doc.subnet with
  | none => .error .keyError
  | some d =>
    match parse_ipaddr2 d.ip with
    | none => .error .addressFormatError
    | some (v6, n) =>
      match parse_ipaddr d.gateway v6 with
      | none => .error .addressFormatError
      | some g =>
        let range := if v6 then get_ipv6_range n d.mask else get_ipv4_range n d.mask
        .ok { net_ip := d.ip, mask := d.mask, gateway := d.gateway,
              server_ip := d.server_ip, failover := d.failover, locked := d.locked,
              traffic_warnings := d.traffic_warnings, traffic_hourly := d.traffic_hourly,
              traffic_daily := d.traffic_daily, traffic_monthly := d.traffic_monthly,
              is_ipv6 := v6, numeric_net_ip := n, numeric_gateway := g,
              numeric_range := range }

/-- Embeds `Subnet.update_info` (server.py 347–371): fetch the subnet
document by the current network address when no explicit result is given,
then repopulate every field from the document. -/
def Subnet.update_info (s : Subnet) (result : Option RobotDoc)
    (connGet : String → RobotDoc) : Except PyErr Subnet × List String :=
  match result with
  | some r => (Subnet.ofDoc r, [])
  | none =>
    let p := "/subnet/" ++ s.net_ip
    (Subnet.ofDoc (connGet p), [p])

/-- Python attribute lookup of `parse_ipaddr` on a `str` value: strings have
no such attribute, so the lookup raises `AttributeError`. -/
def strAttr_parse_ipaddr : Option (String → Bool → Option Nat) := none

/-- Embeds `Subnet.__contains__` (server.py 381–386).  The parameter `addr`
shadows the imported `hetzner.util.addr` module for the whole method body,
so `addr.parse_ipaddr(addr, self.is_ipv6)` is an attribute lookup on the
string argument and raises `AttributeError` before any range comparison. -/
def Subnet.containsImpl (s : Subnet) (a : String) : Except PyErr Bool :=
  match strAttr_parse_ipaddr with
  | none => .error .attributeError
  | some f =>
    match f a s.is_ipv6 with
    | none => .error .addressFormatError
    | some n => .ok (decide (s.numeric_range.1 ≤ n ∧ n ≤ s.numeric_range.2))

/-- The membership test as the specification states it: parse the textual
address with the address-utility module and succeed exactly when the numeric
value lies in the inclusive `numeric_range` interval. -/
def Subnet.containsSpec (s : Subnet) (a : String) : Except PyErr Bool :=
  match parse_ipaddr a s.is_ipv6 with
  | none => .error .addressFormatError
  | some n => .ok (decide (s.numeric_range.1 ≤ n ∧ n ≤ s.numeric_range.2))

/-- Embeds `Subnet.get_ip` (server.py 388–397): test membership with the
`in` operator, fetch the subnet document, and construct a member
`IpAddress`; `None` when the address is not in the subnet. -/
def Subnet.get_ip (s : Subnet) (a : String) (connGet : String → RobotDoc) :
    Except PyErr (Option IpAddress) × List String :=
  match s.containsImpl a with
  | .error e => (.error e, [])
  | .ok true =>
    let p := "/subnet/" ++ s.net_ip
    (match IpAddress.init (connGet p) (some a) with
     | .error e => (.error e, [p])
     | .ok obj => (.ok (some obj), [p]))
  | .ok false => (.ok none, [])

/-! ### IpManager / SubnetManager (server.py 320–339, 405–425)

Iteration first queries the collection endpoint; the outcome of that
transport call — the decoded list or the raised `RobotError` — is passed in
explicitly. -/

/-- Collection view over a server's IP addresses (server.py 320–323). -/
structure IpManager where
  main_ip : Option String
  deriving Repr, DecidableEq

/-- Collection view over a server's subnets (server.py 405–408). -/
structure SubnetManager where
  main_ip : Option String
  deriving Repr, DecidableEq

/-- Embeds `IpManager.__iter__` (server.py 331–339): every `RobotError`
raised by the collection query — whatever its status — is swallowed and
replaced by the empty list; otherwise each entry is wrapped as an
`IpAddress`. -/
def IpManager.iterList (result : Except RobotApiError (List RobotDoc)) :
    Except PyErr (List IpAddress) :=
  match result with
  | .error _ => .ok []
  | .ok docs => docs.mapM (fun d => IpAddress.init d none)

/-- Embeds `SubnetManager.__iter__` (server.py 416–425): a `RobotError`
with status 404 is normalized to the empty list; for any other status the
handler assigns nothing and falls through, so the list comprehension reads
the unassigned local `result` and raises `UnboundLocalError`. -/
def SubnetManager.iterList (result : Except RobotApiError (List RobotDoc)) :
    Except PyErr (List Subnet) :=
  match result with
  | .ok docs => docs.mapM Subnet.ofDoc
  | .error e =>
    if e.status == 404 then .ok []
    else .error .unboundLocalError

/-- The iteration policy as the specification states it: an explicit empty
list and a 404 both yield the empty sequence, and any other transport error
propagates unchanged. -/
def managerIterSpec (wrap : RobotDoc → Except PyErr α)
    (result : Except RobotApiError (List RobotDoc)) :
    Except (RobotApiError ⊕ PyErr) (List α) :=
  match result with
  | .ok docs => (docs.mapM wrap).mapError Sum.inr
  | .error e =>
    if e.status == 404 then .ok []
    else .error (Sum.inl e)

/-! ### Server (server.py 428–500) -/

/-- Embeds `datetime.strptime(text, "%Y-%m-%d")` (server.py 476) as far as
the embedding needs it: a year-month-day triple, or `none` (a raised
`ValueError`) when the text is not of that shape (month out of 1–12 or day
out of 1–31 included). -/
def strptimeYmd (s : String) : Option (Nat × Nat × Nat) :=
  match (pySplit "-" s).mapM parseDecimal with
  | some [y, m, d] =>
    if 1 ≤ m && m ≤ 12 && 1 ≤ d && d ≤ 31 then some (y, m, d) else none
  | _ => none

/-- Embeds the ip-selection chain of `Server.update_info` (server.py
459–466): a truthy `server_ip` or, through the second branch, any non-null
`server_ip`; otherwise a truthy `server_ipv6_net` suffixed with `"2"`;
otherwise `None`. -/
def resolveIp (server_ip server_ipv6_net : Option String) : Option String :=
  if truthyStr server_ip then server_ip
  else if server_ip.isSome then server_ip
  else if truthyStr server_ipv6_net && server_ipv6_net.isSome then
    server_ipv6_net.map (fun s => s ++ "2")
  else none

/-- The ip selection as the specification states it: exactly two branches,
`server_ip` when present taking precedence, else an ip derived from
`server_ipv6_net`, else `None` — presence read as the source's own
truthiness test. -/
def resolveIpSpec (server_ip server_ipv6_net : Option String) : Option String :=
  if truthyStr server_ip then server_ip
  else if truthyStr server_ipv6_net then server_ipv6_net.map (fun s => s ++ "2")
  else none

/-- Data attributes populated by `Server.update_info` (server.py 459–477). -/
structure ServerFields where
  ip : Option String
  number : Nat
  name : String
  product : String
  datacenter : String
  traffic : String
  status : String
  subnets : List String
  cancelled : Bool
  paid_until : Nat × Nat × Nat
  linked_storagebox : Option Nat
  deriving Repr, DecidableEq

/-- Embeds the body of `Server.update_info` once the document is at hand
(server.py 457–477): read the `server` key, resolve the ip, and populate
every cached attribute, parsing `paid_until`. -/
def Server.ofDoc (doc : RobotDoc) : Except PyErr ServerFields :=
  match doc.server with
  | none => .error .keyError
  | some d =>
    match strptimeYmd d.paid_until with
    | none => .error .valueError
    | some pu =>
      .ok { ip := resolveIp d.server_ip d.server_ipv6_net,
            number := d.server_number, name := d.server_name,
            product := d.product, datacenter := d.dc, traffic := d.traffic,
            status := d.status, subnets := d.subnet, cancelled := d.cancelled,
            paid_until := pu, linked_storagebox := d.linked_storagebox }

/-- Canonical server path keyed by the current ip (server.py 455); a Python
f-string renders a `None` ip as the text `None`. -/
def serverPath (ip : Option String) : String :=
  "/server/" ++ (match ip with | some s => s | none => "None")

/-- Embeds `Server.update_info` (server.py 449–477): fetch the server
document by the current ip when no explicit result is given, then
repopulate every attribute from the document. -/
def Server.update_info (s : ServerFields) (result : Option RobotDoc)
    (connGet : String → RobotDoc) : Except PyErr ServerFields × List String :=
  match result with
  | some r => (Server.ofDoc r, [])
  | none =>
    let p := serverPath s.ip
    (Server.ofDoc (connGet p), [p])

/-- Sub-components a `Server` can construct for itself. -/
inductive OwnedComponent where
  | rescueSystem
  | reset
  | ipManager
  | subnetManager
  | reverseDnsManager
  deriving Repr, DecidableEq

/-- Embeds the component constructions of `Server.__init__` (server.py
432–437) in source order.  Line 435, which would construct the
`SubnetManager`, is commented out in the source, and the `AdminAccount` is
not constructed here (`_admin_account` starts as `None`). -/
def Server.initComponents : List OwnedComponent :=
  [.rescueSystem, .reset, .ipManager, .reverseDnsManager]

/-- A constructed `Server`: the data attributes plus the eagerly constructed
sub-components that the claims inspect and the lazy admin-account slot. -/
structure ServerObj where
  fields : ServerFields
  rescue : RescueSystem
  ips : IpManager
  _admin_account : Option AdminAccount
  deriving Repr, DecidableEq

/-- Embeds `Server.__init__` (server.py 429–438): populate the attributes
from the given result document, then construct the sub-components — a fresh
`RescueSystem`, an `IpManager` keyed by the resolved ip — and leave the
admin-account slot empty. -/
def Server.init (doc : RobotDoc) : Except PyErr ServerObj :=
  match Server.ofDoc doc with
  | .error e => .error e
  | .ok f =>
    .ok { fields := f, rescue := RescueSystem.init,
          ips := { main_ip := f.ip }, _admin_account := none }

/-- Embeds the `admin` property (server.py 440–447): construct an
`AdminAccount` — whose `__init__` runs discovery against `discResp` — only
when the slot is empty, and cache it. -/
def Server.adminProp (s : ServerObj) (discResp : ScrapeResponse) :
    Except PyErr (AdminAccount × ServerObj) × List ScrapeReq :=
  match s._admin_account with
  | some a => (.ok (a, s), [])
  | none =>
    let seed : AdminAccount :=
      { serverid := s.fields.number, «exists» := false, login := none, passwd := none }
    match AdminAccount.update_info seed discResp with
    | (.error e, log) => (.error e, log)
    | (.ok a, log) => (.ok (a, { s with _admin_account := some a }), log)

/-! ### Sample documents used by concrete evaluations -/

/-- Sample subnet payload for the spec's `10.0.0.0/24` example. -/
def subnetData10 : SubnetData :=
  { ip := "10.0.0.0", mask := 24, gateway := "10.0.0.1", server_ip := some "1.2.3.4",
    failover := false, locked := false, traffic_warnings := false,
    traffic_hourly := 0, traffic_daily := 0, traffic_monthly := 0 }

/-- Sample subnet document for the spec's `10.0.0.0/24` example. -/
def subnetDoc10 : RobotDoc := { subnet := some subnetData10 }

/-- Sample server payload. -/
def serverData1 : ServerData :=
  { server_ip := some "1.2.3.4", server_ipv6_net := none, server_number := 7,
    server_name := "box", product := "EX41", dc := "FSN1-DC1", traffic := "unlimited",
    status := "ready", subnet := ["raw-subnet-descriptor"], cancelled := false,
    paid_until := "2024-01-02", linked_storagebox := none }

/-- Sample server document. -/
def serverDoc1 : RobotDoc := { server := some serverData1 }

/-! ## Claims -/

/-- C1: the specification says that for iteration over `IpManager` and
`SubnetManager` an explicit empty list and a 404 both yield the empty
sequence and every other transport error propagates unchanged.  The empty
and 404 cases do behave as claimed, but on a status-500 `RobotError`
`IpManager.__iter__` swallows the error into an empty iteration and
`SubnetManager.__iter__` leaves its `result` local unassigned and raises
`UnboundLocalError`, while `managerIterSpec` — the claimed policy — would
propagate the transport error itself. -/
theorem manager_iteration_error_policy :
    IpManager.iterList (.ok []) = .ok [] ∧
    SubnetManager.iterList (.ok []) = .ok [] ∧
    IpManager.iterList (.error { status := 404 }) = .ok [] ∧
    SubnetManager.iterList (.error { status := 404 }) = .ok [] ∧
    IpManager.iterList (.error { status := 500 }) = .ok [] ∧
    SubnetManager.iterList (.error { status := 500 }) = .error .unboundLocalError ∧
    managerIterSpec Subnet.ofDoc (.error { status := 500 }) =
      .error (Sum.inl { status := 500 }) :=
  ⟨rfl, rfl, rfl, rfl, rfl, rfl, rfl⟩

/-- C2 counterexample: the claim says `Server.update_info` selects the ip by
the two-branch precedence alone, and the spec calls the second branch dead;
but for an empty-but-non-null `server_ip` the second branch fires and the
resolved ip is the empty string where the claimed two-branch selection
yields `None`. -/
theorem server_ip_resolution_cex :
    resolveIp (some "") none = some "" ∧
    resolveIpSpec (some "") none = none ∧
    resolveIp (some "") none ≠ resolveIpSpec (some "") none := by
  refine ⟨rfl, rfl, ?_⟩
  decide

/-- C2 (amended): exactly one resolved ip is selected, with `server_ip`
taking precedence whenever it is non-null — including the empty string,
through the second branch, which is therefore reachable rather than dead —
otherwise the ip is the truthy `server_ipv6_net` suffixed with `"2"`,
otherwise `None`; and the ip populated by `Server.update_info` is exactly
this resolution of the document's two fields. -/
theorem server_ip_resolution_amended :
    (∀ sip v6, resolveIp sip v6 =
      (if sip.isSome then sip
       else if truthyStr v6 then v6.map (fun s => s ++ "2") else none)) ∧
    (∀ doc d f, doc.server = some d → Server.ofDoc doc = .ok f →
      f.ip = resolveIp d.server_ip d.server_ipv6_net) := by
  constructor
  · intro sip v6
    cases sip with
    | none =>
      cases v6 with
      | none => rfl
      | some s => simp [resolveIp, truthyStr]
    | some s =>
      by_cases h : s.isEmpty <;> simp [resolveIp, truthyStr, h]
  · intro doc d f h1 h2
    simp only [Server.ofDoc, h1] at h2
    cases hp : strptimeYmd d.paid_until with
    | none => rw [hp] at h2; exact absurd h2 (by simp)
    | some pu =>
      rw [hp] at h2
      simp only [Except.ok.injEq] at h2
      rw [← h2]

/-- C2 witness: the amended theorem applied to a concrete server document. -/
theorem server_ip_resolution_amended_witness :
    { ip := some "1.2.3.4", number := 7, name := "box", product := "EX41",
      datacenter := "FSN1-DC1", traffic := "unlimited", status := "ready",
      subnets := ["raw-subnet-descriptor"], cancelled := false,
      paid_until := (2024, 1, 2), linked_storagebox := none : ServerFields }.ip =
      resolveIp (some "1.2.3.4") none :=
  server_ip_resolution_amended.2 serverDoc1 serverData1 _ rfl (by decide)

/-- C3 counterexample: the claim says a constructed `Server` owns one
`SubnetManager`, but `Server.__init__` never constructs one — the
construction line is commented out in the source. -/
theorem server_owns_subnet_manager_cex :
    OwnedComponent.subnetManager ∉ Server.initComponents := by decide

/-- C3 (amended): after constructing a `Server` from a response document,
the server owns one freshly initialised `RescueSystem` and one `IpManager`
keyed by the resolved ip (together with the reset and reverse-DNS
components), but no `SubnetManager` — the `subnets` attribute instead holds
the document's raw descriptor list — and one `AdminAccount` is created
lazily: the slot starts empty, the first access of `admin` constructs and
caches the account, and later accesses return the cached one without
construction. -/
theorem server_construction_components :
    Server.initComponents =
      [.rescueSystem, .reset, .ipManager, .reverseDnsManager] ∧
    (∀ doc s, Server.init doc = .ok s →
      s.rescue = RescueSystem.init ∧ s.ips = { main_ip := s.fields.ip } ∧
      s._admin_account = none) ∧
    (∀ doc d s, doc.server = some d → Server.init doc = .ok s →
      s.fields.subnets = d.subnet) ∧
    (∀ s resp a s2 log, Server.adminProp s resp = (.ok (a, s2), log) →
      s2._admin_account = some a) ∧
    (∀ s a resp, s._admin_account = some a →
      Server.adminProp s resp = (.ok (a, s), [])) := by
  refine ⟨rfl, ?_, ?_, ?_, ?_⟩
  · intro doc s h
    simp only [Server.init] at h
    cases hd : Server.ofDoc doc with
    | error e => rw [hd] at h; exact absurd h (by simp)
    | ok f =>
      rw [hd] at h
      simp only [Except.ok.injEq] at h
      rw [← h]
      exact ⟨rfl, rfl, rfl⟩
  · intro doc d s h1 h2
    simp only [Server.init] at h2
    cases hd : Server.ofDoc doc with
    | error e => rw [hd] at h2; exact absurd h2 (by simp)
    | ok f =>
      rw [hd] at h2
      simp only [Except.ok.injEq] at h2
      simp only [Server.ofDoc, h1] at hd
      cases hp : strptimeYmd d.paid_until with
      | none => rw [hp] at hd; exact absurd hd (by simp)
      | some pu =>
        rw [hp] at hd
        simp only [Except.ok.injEq] at hd
        rw [← h2, ← hd]
  · intro s resp a s2 log h
    simp only [Server.adminProp] at h
    cases hc : s._admin_account with
    | some a0 =>
      rw [hc] at h
      simp only [Prod.mk.injEq, Except.ok.injEq] at h
      rw [← h.1.2, hc, h.1.1]
    | none =>
      rw [hc] at h
      cases hu : AdminAccount.update_info
          { serverid := s.fields.number, «exists» := false, login := none,
            passwd := none } resp with
      | mk r log2 =>
        rw [hu] at h
        cases r with
        | error e => exact absurd h (by simp)
        | ok a2 =>
          simp only [Prod.mk.injEq, Except.ok.injEq] at h
          rw [← h.1.2, ← h.1.1]
  · intro s a resp h
    simp only [Server.adminProp, h]

/-- The object `Server.__init__` builds from the sample server document. -/
def serverObj1 : ServerObj :=
  { fields := { ip := some "1.2.3.4", number := 7, name := "box", product := "EX41",
                datacenter := "FSN1-DC1", traffic := "unlimited", status := "ready",
                subnets := ["raw-subnet-descriptor"], cancelled := false,
                paid_until := (2024, 1, 2), linked_storagebox := none },
    rescue := RescueSystem.init, ips := { main_ip := some "1.2.3.4" },
    _admin_account := none }

/-- C3 witness: the amended theorem applied to the concrete sample server
document. -/
theorem server_construction_components_witness :
    serverObj1.rescue = RescueSystem.init ∧
    serverObj1.ips = { main_ip := serverObj1.fields.ip } ∧
    serverObj1._admin_account = none :=
  server_construction_components.2.1 serverDoc1 serverObj1 (by decide)

/-- C4: the claim describes `Subnet.__contains__` as the parse-and-range
membership test, true on `10.0.0.5` and `10.0.0.255` and false on
`10.0.1.0` for `10.0.0.0/24`; but in the source the method's parameter
`addr` shadows the address-utility module, so every membership test raises
`AttributeError` instead of returning a boolean, while the parse-and-range
test the claim describes (`Subnet.containsSpec`, built on the same cached
`numeric_range`) yields exactly the claimed values. -/
theorem subnet_contains_shadowing_bug :
    (∀ (s : Subnet) (a : String), Subnet.containsImpl s a = .error .attributeError) ∧
    (Subnet.ofDoc subnetDoc10).map (fun s =>
        (Subnet.containsImpl s "10.0.0.5", Subnet.containsSpec s "10.0.0.5",
         Subnet.containsSpec s "10.0.0.255", Subnet.containsSpec s "10.0.1.0")) =
      .ok (.error .attributeError, .ok true, .ok true, .ok false) :=
  ⟨fun _ _ => rfl, by decide⟩

/-- C8: for `IpAddress`, `Subnet`, and `Server`, `update_info` applied to an
explicit document equal to the one the parameterless call would itself fetch
produces the same object either way; the parameterless path performs exactly
one fetch against the canonical path, the explicit-document path performs
none.  For a subnet-context `IpAddress` the canonical path is keyed by the
stored network address, so the statement assumes that attribute has been
assigned (it always is once the constructor has run). -/
theorem refresh_round_trip :
    (∀ (s : Subnet) (g : String → RobotDoc),
      Subnet.update_info s none g =
        ((Subnet.update_info s (some (g ("/subnet/" ++ s.net_ip))) g).1,
         ["/subnet/" ++ s.net_ip])) ∧
    (∀ (s : ServerFields) (g : String → RobotDoc),
      Server.update_info s none g =
        ((Server.update_info s (some (g (serverPath s.ip))) g).1,
         [serverPath s.ip])) ∧
    (∀ (s : IpAddress) (g : String → RobotDoc), s.subnet_ip = none →
      IpAddress.update_info s none g =
        ((IpAddress.update_info s (some (g ("/ip/" ++ s.ip))) g).1,
         ["/ip/" ++ s.ip])) ∧
    (∀ (s : IpAddress) (g : String → RobotDoc) (m na : String),
      s.subnet_ip = some m → s._subnet_addr = some na →
      IpAddress.update_info s none g =
        ((IpAddress.update_info s (some (g ("/subnet/" ++ na))) g).1,
         ["/subnet/" ++ na])) ∧
    (∀ (s : Subnet) (d : RobotDoc) (g : String → RobotDoc),
      (Subnet.update_info s (some d) g).2 = []) ∧
    (∀ (s : ServerFields) (d : RobotDoc) (g : String → RobotDoc),
      (Server.update_info s (some d) g).2 = []) ∧
    (∀ (s : IpAddress) (d : RobotDoc) (g : String → RobotDoc),
      (IpAddress.update_info s (some d) g).2 = []) := by
  refine ⟨fun s g => rfl, fun s g => rfl, ?_, ?_, fun s d g => rfl, fun s d g => rfl, ?_⟩
  · intro s g h
    simp only [IpAddress.update_info, h]
  · intro s g m na h1 h2
    simp only [IpAddress.update_info, h1, h2]
  · intro s d g
    cases h : s.subnet_ip <;> simp only [IpAddress.update_info, h]

/-- Sample member `IpAddress` constructed from the `10.0.0.0/24` subnet
document for the member address `10.0.0.5`. -/
def ipAddr10 : IpAddress :=
  { subnet_ip := some "10.0.0.5", _subnet_addr := some "10.0.0.0",
    ip := "10.0.0.5", server_ip := some "1.2.3.4", locked := false,
    separate_mac := none, traffic_warnings := false, traffic_hourly := 0,
    traffic_daily := 0, traffic_monthly := 0 }

/-- Sample transport that answers every fetch with the subnet document. -/
def connGet10 : String → RobotDoc := fun _ => subnetDoc10

/-- C8 witness: the round trip applied to the concrete subnet-context
address. -/
theorem refresh_round_trip_witness :
    IpAddress.update_info ipAddr10 none connGet10 =
      ((IpAddress.update_info ipAddr10
          (some (connGet10 ("/subnet/" ++ "10.0.0.0"))) connGet10).1,
       ["/subnet/" ++ "10.0.0.0"]) :=
  refresh_round_trip.2.2.2.1 ipAddr10 connGet10 "10.0.0.5" "10.0.0.0" rfl rfl

/-- C9: an `IpAddress` constructed from a subnet context keeps the canonical
network address separately from the member address: after `update_info` the
`ip` field is the member address with `separate_mac` forced to `None`, the
transport's canonical network address is stored in `_subnet_addr`, and a
parameterless refresh fetches by that stored network address.  The other
subnet context the claim names, `Subnet.get_ip`, never constructs an
address at all: it always raises `AttributeError` through the shadowed
membership test, so the claim is vacuous over that path. -/
theorem ip_member_of_subnet_invariant :
    (∀ (doc : RobotDoc) (d : SubnetData) (member : String) (obj : IpAddress)
       (g : String → RobotDoc), doc.subnet = some d →
      IpAddress.init doc (some member) = .ok obj →
      obj.ip = member ∧ obj.subnet_ip = some member ∧ obj.separate_mac = none ∧
      obj._subnet_addr = some d.ip ∧
      (IpAddress.update_info obj none g).2 = ["/subnet/" ++ d.ip]) ∧
    (∀ (s : Subnet) (a : String) (g : String → RobotDoc),
      Subnet.get_ip s a g = (.error .attributeError, [])) := by
  constructor
  · intro doc d member obj g h1 h2
    simp only [IpAddress.init, IpAddress.applySubnet, h1, Except.ok.injEq] at h2
    rw [← h2]
    exact ⟨rfl, rfl, rfl, rfl, rfl⟩
  · intro s a g
    rfl

/-- C9 witness: the invariant applied to the concrete subnet document and
member address. -/
theorem ip_member_of_subnet_invariant_witness :
    ipAddr10.ip = "10.0.0.5" ∧ ipAddr10.subnet_ip = some "10.0.0.5" ∧
    ipAddr10.separate_mac = none ∧ ipAddr10._subnet_addr = some "10.0.0.0" ∧
    (IpAddress.update_info ipAddr10 none connGet10).2 = ["/subnet/" ++ "10.0.0.0"] :=
  ip_member_of_subnet_invariant.1 subnetDoc10 subnetData10 "10.0.0.5" ipAddr10
    connGet10 rfl (by decide)

/-- Whether an embedded operation returned normally. -/
def okBool {ε α : Type} : Except ε α → Bool
  | .ok _ => true
  | .error _ => false

/-- C5: `AdminAccount.create` succeeds exactly when the submission response
body contains `msgbox_success`, regardless of the submission status code; on
success it re-runs discovery (login plus admin-page fetch), sets
`exists = True` when the discovery page shows the account, adopts the
submitted password and returns it unchanged; on failure with an
`error_list` in the HTML it raises an error whose message is the generic
message followed by every `<li>` entry's text joined by commas; on failure
without an error list it raises the generic message alone. -/
theorem admin_create_success_marker (a : AdminAccount) (passwd : String)
    (formResp submitResp discResp : ScrapeResponse) (tok : String)
    (hcsrf : extract_csrf_token formResp.body = some tok) :
    (∀ st, AdminAccount.create a passwd formResp
        { submitResp with status := st } discResp =
      AdminAccount.create a passwd formResp submitResp discResp) ∧
    (discResp.status = 200 →
      (okBool (AdminAccount.create a passwd formResp submitResp discResp).1 =
        containsSub successMarker submitResp.body)) ∧
    (∀ l, containsSub successMarker submitResp.body = true →
      discResp.status = 200 → searchLogin discResp.body.data = some l →
      AdminAccount.create a passwd formResp submitResp discResp =
        (.ok ((some l, passwd),
          { serverid := a.serverid, «exists» := true, login := some l,
            passwd := some passwd }),
         [ScrapeReq.request (adminPath a.serverid),
          ScrapeReq.request (adminSubmitPath a),
          ScrapeReq.login, ScrapeReq.request (adminPath a.serverid)])) ∧
    (∀ blk, containsSub successMarker submitResp.body = false →
      ulSearch submitResp.body.data = some blk →
      (AdminAccount.create a passwd formResp submitResp discResp).1 =
        .error (.webRobotError (adminFailMsg a ++ ": " ++ joinComma (liScan blk)))) ∧
    (containsSub successMarker submitResp.body = false →
      ulSearch submitResp.body.data = none →
      (AdminAccount.create a passwd formResp submitResp discResp).1 =
        .error (.webRobotError (adminFailMsg a))) := by
  refine ⟨?_, ?_, ?_, ?_, ?_⟩
  · intro st
    simp only [AdminAccount.create, hcsrf]
  · intro h200
    cases hm : containsSub successMarker submitResp.body with
    | false =>
      simp only [AdminAccount.create, hcsrf, hm]
      cases hul : ulSearch submitResp.body.data <;> simp [hul, okBool]
    | true =>
      simp only [AdminAccount.create, hcsrf, hm, AdminAccount.update_info, h200]
      cases hl : searchLogin discResp.body.data <;> simp [hl, okBool]
  · intro l hm h200 hl
    simp only [AdminAccount.create, hcsrf, hm, AdminAccount.update_info, h200, hl]
    rfl
  · intro blk hm hul
    simp only [AdminAccount.create, hcsrf, hm, hul]
    rfl
  · intro hm hul
    simp only [AdminAccount.create, hcsrf, hm, hul]
    rfl

/-- Sample account before creation. -/
def adminSeed7 : AdminAccount :=
  { serverid := 7, «exists» := false, login := none, passwd := none }

/-- Sample form response carrying an anti-forgery token. -/
def formResp7 : ScrapeResponse :=
  { status := 200, body := "<input name=\"password[_csrf_token]\" value=\"tok123\" />" }

/-- Sample successful submission response. -/
def submitOk7 : ScrapeResponse :=
  { status := 200, body := "ok msgbox_success done" }

/-- Sample failed submission response with a two-entry error list. -/
def submitErr7 : ScrapeResponse :=
  { status := 200,
    body := "<ul class=\"error_list\"><li> first error </li><li>second</li></ul>" }

/-- Sample discovery page showing the created login. -/
def discResp7 : ScrapeResponse :=
  { status := 200, body := "x\"label_req\">Login junk \"element\">nimda<p>" }

/-- C5 witness: the created-account run on the simulated success response
and the aggregated error message on the simulated two-entry error list. -/
theorem admin_create_success_marker_witness :
    AdminAccount.create adminSeed7 "pw" formResp7 submitOk7 discResp7 =
      (.ok ((some "nimda", "pw"),
        { serverid := 7, «exists» := true, login := some "nimda",
          passwd := some "pw" }),
       [ScrapeReq.request (adminPath 7),
        ScrapeReq.request (adminSubmitPath adminSeed7),
        ScrapeReq.login, ScrapeReq.request (adminPath 7)]) ∧
    (AdminAccount.create adminSeed7 "pw" formResp7 submitErr7 discResp7).1 =
      .error (.webRobotError "Unable to create admin account: first error, second") :=
  ⟨(admin_create_success_marker adminSeed7 "pw" formResp7 submitOk7 discResp7
      "tok123" (by decide)).2.2.1 "nimda" (by decide) rfl (by decide),
   (admin_create_success_marker adminSeed7 "pw" formResp7 submitErr7 discResp7
      "tok123" (by decide)).2.2.2.1
      "<ul class=\"error_list\"><li> first error </li><li>second</li></ul>".data
      (by decide) (by decide)⟩

/-- The discovery log of `AdminAccount.update_info` is always one login and
one admin-page fetch, whatever the response. -/
theorem update_info_log (a : AdminAccount) (resp : ScrapeResponse) :
    (AdminAccount.update_info a resp).2 =
      [ScrapeReq.login, ScrapeReq.request (adminPath a.serverid)] := by
  simp only [AdminAccount.update_info]
  by_cases h : resp.status != 200
  · simp [h]
  · simp only [h, if_false]
    cases searchLogin resp.body.data <;> rfl

/-- C7: `AdminAccount.delete` on an account with `exists = False` performs
zero scraping calls and returns the account unchanged; with `exists = True`
it hits the delete endpoint, raises an assertion failure when the success
marker is missing from the response, and otherwise re-runs discovery (login
plus admin-page fetch) and adopts its outcome. -/
theorem admin_delete_idempotent (a : AdminAccount)
    (delResp discResp : ScrapeResponse) :
    (a.exists = false → AdminAccount.delete a delResp discResp = (.ok a, [])) ∧
    (a.exists = true → containsSub successMarker delResp.body = true →
      AdminAccount.delete a delResp discResp =
        ((AdminAccount.update_info a discResp).1,
         [ScrapeReq.request (adminDeletePath a.serverid),
          ScrapeReq.login, ScrapeReq.request (adminPath a.serverid)])) ∧
    (a.exists = true → containsSub successMarker delResp.body = false →
      AdminAccount.delete a delResp discResp =
        (.error .assertionError,
         [ScrapeReq.request (adminDeletePath a.serverid)])) := by
  refine ⟨?_, ?_, ?_⟩
  · intro h
    simp [AdminAccount.delete, h]
  · intro h hm
    cases hu : AdminAccount.update_info a discResp with
    | mk r log =>
      have hl : log = [ScrapeReq.login, ScrapeReq.request (adminPath a.serverid)] := by
        have h2 := update_info_log a discResp
        rw [hu] at h2
        exact h2
      simp only [AdminAccount.delete, h, hm, hu, hl]
      rfl
  · intro h hm
    simp [AdminAccount.delete, h, hm]

/-- Sample existing account. -/
def adminLive7 : AdminAccount :=
  { serverid := 7, «exists» := true, login := some "nimda", passwd := none }

/-- Sample delete-endpoint response carrying the success marker. -/
def delResp7 : ScrapeResponse :=
  { status := 200, body := "done msgbox_success" }

/-- Sample discovery page showing no account. -/
def discGone7 : ScrapeResponse := { status := 200, body := "nothing here" }

/-- C7 witness: zero calls on a missing account, and the delete-then-rescan
run on an existing one. -/
theorem admin_delete_idempotent_witness :
    AdminAccount.delete adminSeed7 delResp7 discGone7 = (.ok adminSeed7, []) ∧
    AdminAccount.delete adminLive7 delResp7 discGone7 =
      ((AdminAccount.update_info adminLive7 discGone7).1,
       [ScrapeReq.request (adminDeletePath 7),
        ScrapeReq.login, ScrapeReq.request (adminPath 7)]) :=
  ⟨(admin_delete_idempotent adminSeed7 delResp7 discGone7).1 rfl,
   (admin_delete_idempotent adminLive7 delResp7 discGone7).2.1 rfl (by decide)⟩

/-- C6: `RescueSystem.activate` is a no-op on an active system — whether the
active flag is already cached or freshly fetched, it issues zero mutating
requests — and on an inactive system it issues exactly one POST and adopts
the reply as the new status atomically; consequently two activations in a
row starting from an inactive system whose activation reply reports
`active = True` perform exactly one mutating request in total, the second
call touching the network not at all. -/
theorem rescue_activate_idempotent (rs : RescueSystem) (number k : Nat)
    (resp : Nat → RobotDoc) :
    (rs._active = some true → rs.activate number resp k = (.ok (), rs, k, [])) ∧
    (∀ r, rs._active = none → (resp k).rescue = some r → r.active = true →
      rs.activate number resp k =
        (.ok (), { _active := some true, _password := r.password,
                   _authorized_keys := r.authorized_key }, k + 1,
         [ConnReq.get (bootPath number)]) ∧
      countMutating [ConnReq.get (bootPath number)] = 0) ∧
    (∀ r, rs._active = some false → (resp k).rescue = some r →
      rs.activate number resp k =
        (.ok (), { _active := some r.active, _password := r.password,
                   _authorized_keys := r.authorized_key }, k + 1,
         [ConnReq.request "post" (bootPath number)]) ∧
      countMutating [ConnReq.request "post" (bootPath number)] = 1) ∧
    (∀ r, rs._active = some false → (resp k).rescue = some r → r.active = true →
      (rs.activate number resp k).2.1.activate number resp
          (rs.activate number resp k).2.2.1 =
        (.ok (), (rs.activate number resp k).2.1,
         (rs.activate number resp k).2.2.1, []) ∧
      countMutating ((rs.activate number resp k).2.2.2 ++
        ((rs.activate number resp k).2.1.activate number resp
          (rs.activate number resp k).2.2.1).2.2.2) = 1) := by
  refine ⟨?_, ?_, ?_, ?_⟩
  · intro h
    simp only [RescueSystem.activate, RescueSystem.activeProp, h]
    rfl
  · intro r h hr ha
    simp only [RescueSystem.activate, RescueSystem.activeProp, h,
      RescueSystem.adopt, hr, ha]
    exact ⟨rfl, rfl⟩
  · intro r h hr
    simp only [RescueSystem.activate, RescueSystem.activeProp, h,
      RescueSystem.adopt, hr]
    exact ⟨rfl, rfl⟩
  · intro r h hr ha
    have hfirst : rs.activate number resp k =
        (.ok (), { _active := some r.active, _password := r.password,
                   _authorized_keys := r.authorized_key }, k + 1,
         [ConnReq.request "post" (bootPath number)]) := by
      simp only [RescueSystem.activate, RescueSystem.activeProp, h,
        RescueSystem.adopt, hr]
      rfl
    rw [hfirst]
    simp only [RescueSystem.activate, RescueSystem.activeProp, ha]
    exact ⟨rfl, rfl⟩

/-- Activation reply document reporting the rescue system active. -/
def rescueActiveDoc : RobotDoc :=
  { rescue := some { active := true, password := some "rpw",
                     authorized_key := some ["aa:bb"] } }

/-- Sample transport answering every rescue call with the active reply. -/
def rescueResp : Nat → RobotDoc := fun _ => rescueActiveDoc

/-- Rescue cache of a system known to be inactive. -/
def rescueInactive : RescueSystem :=
  { _active := some false, _password := none, _authorized_keys := none }

/-- C6 witness: activating the known-inactive system issues exactly one
mutating request, and a second activation in a row issues none. -/
theorem rescue_activate_idempotent_witness :
    (rescueInactive.activate 7 rescueResp 0 =
      (.ok (), { _active := some true, _password := some "rpw",
                 _authorized_keys := some ["aa:bb"] }, 1,
       [ConnReq.request "post" (bootPath 7)]) ∧
     countMutating [ConnReq.request "post" (bootPath 7)] = 1) ∧
    ((rescueInactive.activate 7 rescueResp 0).2.1.activate 7 rescueResp
        (rescueInactive.activate 7 rescueResp 0).2.2.1 =
      (.ok (), (rescueInactive.activate 7 rescueResp 0).2.1,
       (rescueInactive.activate 7 rescueResp 0).2.2.1, []) ∧
     countMutating ((rescueInactive.activate 7 rescueResp 0).2.2.2 ++
       ((rescueInactive.activate 7 rescueResp 0).2.1.activate 7 rescueResp
         (rescueInactive.activate 7 rescueResp 0).2.2.1).2.2.2) = 1) :=
  ⟨(rescue_activate_idempotent rescueInactive 7 0 rescueResp).2.2.1
      (rescueActiveDoc.rescue.get (by decide)) rfl rfl,
   (rescue_activate_idempotent rescueInactive 7 0 rescueResp).2.2.2
      (rescueActiveDoc.rescue.get (by decide)) rfl rfl rfl⟩

/-- C10: each of the three rescue properties fetches the status document
exactly when its own cached field is `None` — a cached value is returned
with no network call, a miss performs one fetch that repopulates all three
fields from the one document — and since a fetched null value is stored as
the same `None` as "never fetched", a property whose server-side value is
null (the password of an inactive rescue system, say) performs a fresh
fetch on every access. -/
theorem rescue_lazy_property_cache (rs : RescueSystem) (number k : Nat)
    (resp : Nat → RobotDoc) :
    (∀ b, rs._active = some b →
      rs.activeProp number resp k = (.ok (some b), rs, k, [])) ∧
    (∀ p, rs._password = some p →
      rs.passwordProp number resp k = (.ok (some p), rs, k, [])) ∧
    (∀ ks, rs._authorized_keys = some ks →
      rs.authorizedKeysProp number resp k = (.ok (some ks), rs, k, [])) ∧
    (∀ r, rs._active = none → (resp k).rescue = some r →
      rs.activeProp number resp k =
        (.ok (some r.active),
         { _active := some r.active, _password := r.password,
           _authorized_keys := r.authorized_key }, k + 1,
         [ConnReq.get (bootPath number)])) ∧
    (∀ r, rs._password = none → (resp k).rescue = some r →
      rs.passwordProp number resp k =
        (.ok r.password,
         { _active := some r.active, _password := r.password,
           _authorized_keys := r.authorized_key }, k + 1,
         [ConnReq.get (bootPath number)])) ∧
    (∀ r, rs._authorized_keys = none → (resp k).rescue = some r →
      rs.authorizedKeysProp number resp k =
        (.ok r.authorized_key,
         { _active := some r.active, _password := r.password,
           _authorized_keys := r.authorized_key }, k + 1,
         [ConnReq.get (bootPath number)])) ∧
    (∀ r, rs._password = none → (resp k).rescue = some r → r.password = none →
      (rs.passwordProp number resp k).2.1._password = none ∧
      ((rs.passwordProp number resp k).2.1.passwordProp number resp (k + 1)).2.2.2 =
        [ConnReq.get (bootPath number)]) := by
  refine ⟨?_, ?_, ?_, ?_, ?_, ?_, ?_⟩
  · intro b h
    simp only [RescueSystem.activeProp, h]
  · intro p h
    simp only [RescueSystem.passwordProp, h]
  · intro ks h
    simp only [RescueSystem.authorizedKeysProp, h]
  · intro r h hr
    simp only [RescueSystem.activeProp, h, RescueSystem.adopt, hr]
  · intro r h hr
    simp only [RescueSystem.passwordProp, h, RescueSystem.adopt, hr]
  · intro r h hr
    simp only [RescueSystem.authorizedKeysProp, h, RescueSystem.adopt, hr]
  · intro r h hr hp
    have hfirst : rs.passwordProp number resp k =
        (.ok r.password,
         { _active := some r.active, _password := r.password,
           _authorized_keys := r.authorized_key }, k + 1,
         [ConnReq.get (bootPath number)]) := by
      simp only [RescueSystem.passwordProp, h, RescueSystem.adopt, hr]
    rw [hfirst]
    simp only [hp]
    constructor
    · trivial
    · simp only [RescueSystem.passwordProp]
      cases h2 : RescueSystem.adopt
          { _active := some r.active, _password := none,
            _authorized_keys := r.authorized_key } (resp (k + 1)) <;>
        simp [h2]

/-- Status document of an inactive rescue system: the server-side password
is null. -/
def rescueInactiveDoc : RobotDoc :=
  { rescue := some { active := false, password := none, authorized_key := none } }

/-- Sample transport answering every rescue call with the inactive reply. -/
def rescueRespNull : Nat → RobotDoc := fun _ => rescueInactiveDoc

/-- C10 witness: on a fresh cache the password read fetches once, stores the
null password as `None` again, and the next read fetches again. -/
theorem rescue_lazy_property_cache_witness :
    RescueSystem.init.passwordProp 7 rescueRespNull 0 =
      (.ok none, { _active := some false, _password := none,
                   _authorized_keys := none }, 1, [ConnReq.get (bootPath 7)]) ∧
    (RescueSystem.init.passwordProp 7 rescueRespNull 0).2.1._password = none ∧
    ((RescueSystem.init.passwordProp 7 rescueRespNull 0).2.1.passwordProp 7
        rescueRespNull 1).2.2.2 = [ConnReq.get (bootPath 7)] :=
  ⟨(rescue_lazy_property_cache RescueSystem.init 7 0 rescueRespNull).2.2.2.2.1
      (rescueInactiveDoc.rescue.get (by decide)) rfl rfl,
   (rescue_lazy_property_cache RescueSystem.init 7 0 rescueRespNull).2.2.2.2.2.2
      (rescueInactiveDoc.rescue.get (by decide)) rfl rfl rfl⟩

end Hetzner
